import Mathlib

/-!
Verification of the live-voice front-end (src/App.tsx,
src/components/LiveVoice.tsx, src/components/ChatInterface.tsx,
src/types.ts).

JavaScript numbers are modelled as rationals; the host square root
(Math.sqrt) is an abstract parameter of the functions that use it.
The React component is modelled as an explicit state machine: component
state and refs become fields of a state record, event handlers and SDK
callbacks become transitions that return the successor state together
with the list of externally visible actions they perform (PCM frames
sent, playback sources started or stopped, session opened or closed).
-/

/-- State held by the `onmessage` playback path of LiveVoice:
`nextStartTimeRef`, `sourcesRef` (tracked playback source ids) and the
`isAiSpeaking` flag. -/
structure OutState where
  nextStartTime : ℚ
  sources : List Nat
  isAiSpeaking : Bool
deriving Repr, DecidableEq

/-- A `LiveServerMessage` as far as the handler inspects it: the duration
of the decoded inline audio part, when present, and the
`serverContent.interrupted` flag. -/
structure ServerMsg where
  audioDuration : Option ℚ
  interrupted : Bool
deriving Repr, DecidableEq

/-- Externally visible effect of one `onmessage` call: the playback source
started (id and scheduled start time), if any, and the sources stopped. -/
structure MsgEffect where
  started : Option (Nat × ℚ)
  stopped : List Nat
deriving Repr, DecidableEq

/-- The `onmessage` callback of LiveVoice (src/components/LiveVoice.tsx,
lines 197-235): if the message carries inline audio, clamp
`nextStartTimeRef` up to the context current time, start a fresh source
there, track it, mark the AI as speaking and advance `nextStartTimeRef`
by the buffer duration; afterwards, if the message carries the
`interrupted` flag, stop and clear every tracked source, reset
`nextStartTimeRef` to 0 and clear the AI-speaking flag. -/
def onmessage (st : OutState) (fid : Nat) (ctxTime : ℚ) (m : ServerMsg) :
    OutState × MsgEffect :=
  let audioRes : OutState × Option (Nat × ℚ) :=
    match m.audioDuration with
    | some d =>
      let t0 := max st.nextStartTime ctxTime
      (⟨t0 + d, fid :: st.sources, true⟩, some (fid, t0))
    | none => (st, none)
  let st1 := audioRes.1
  if m.interrupted then
    (⟨0, [], false⟩, ⟨audioRes.2, st1.sources⟩)
  else
    (st1, ⟨audioRes.2, []⟩)

/-- Runs `onmessage` over a sequence of audio-only messages (source id,
context current time at arrival, decoded buffer duration) and collects
the resulting playback schedule as (start time, duration) pairs in
arrival order. -/
def runSchedule (st : OutState) : List (Nat × ℚ × ℚ) → List (ℚ × ℚ)
  | [] => []
  | (fid, t, d) :: rest =>
    let r := onmessage st fid t ⟨some d, false⟩
    (match r.2.started with
     | some (_, t0) => [(t0, d)]
     | none => []) ++ runSchedule r.1 rest

/-- Sum of the squares of every fourth sample of a block, mirroring the
loop `for(let i=0; i<inputData.length; i+=4) sum += inputData[i]*inputData[i]`
in `onaudioprocess` (src/components/LiveVoice.tsx, lines 179-182). -/
def sumSqEvery4 (block : List ℚ) : ℚ :=
  ((List.range block.length).filter (fun i => i % 4 = 0)).foldl
    (fun acc i => acc + block.getD i 0 * block.getD i 0) 0

/-- Instantaneous volume computed by `onaudioprocess` (lines 183-186):
the root-mean-square of every fourth sample, boosted by 5 and clamped at
1 via `Math.min(rms * 5, 1)`. The host square root is the parameter `sq`. -/
def instVolume (sq : ℚ → ℚ) (block : List ℚ) : ℚ :=
  min (sq (sumSqEvery4 block / ((block.length : ℚ) / 4)) * 5) 1

/-- One animation-frame update of the visual volume (`startVisualLoop`,
lines 100-108): `prev + (currentVolume - prev) * 0.2`. -/
def visualStep (prev cur : ℚ) : ℚ :=
  prev + (cur - prev) * 0.2

/-- Modelled from the spec: `createBlob` is defined in
src/utils/audioUtils.ts, which is not among the sources; the glossary
describes a PCM frame as a raw block of digitized audio samples, so the
blob is modelled as the standard 16-bit PCM encoding of the float
samples. The claims only need that the forwarded payload is a function
of the captured block. -/
def createBlob (samples : List ℚ) : List ℤ :=
  samples.map (fun x => ⌊x * 32768⌋)

/-- The configuration passed to `ai.live.connect` (lines 146-154). -/
structure LiveConfig where
  modelName : String
  voiceName : String
  systemInstruction : String
deriving Repr, DecidableEq

/-- Builds the connect configuration exactly as `connectSession` does. -/
def mkLiveConfig (si : String) : LiveConfig :=
  ⟨"gemini-2.5-flash-native-audio-preview-09-2025", "Zephyr", si⟩

/-- Full state of the LiveVoice component: the React state hooks
(isActive, isConnecting, isAiSpeaking, isMicOn, systemInstruction, error,
visualVolume) and the refs (currentVolumeRef, nextStartTimeRef,
sourcesRef, sessionPromiseRef as `sessionOpen`, streamRef as
`streamActive`, the audio contexts as `contextsOpen`, the animation loop
as `animRunning`). `capturedMicOn` is the `isMicOn` value captured by the
installed `onaudioprocess` closure (none while no processor is
installed); `renderMicAtConnect` is the `isMicOn` value of the render in
which the running `connectSession` closure was created, which is the
value that closure and its callbacks see. -/
structure CompState where
  isActive : Bool
  isConnecting : Bool
  isAiSpeaking : Bool
  isMicOn : Bool
  systemInstruction : String
  error : Option String
  visualVolume : ℚ
  currentVolume : ℚ
  nextStartTime : ℚ
  sources : List Nat
  sessionOpen : Bool
  streamActive : Bool
  contextsOpen : Bool
  capturedMicOn : Option Bool
  animRunning : Bool
  renderMicAtConnect : Bool
deriving Repr, DecidableEq

/-- Default system instruction (line 19 of the source; the trailing
mandated-greeting sentence of the literal is elided here because it
contains quote characters and no claim depends on the default text). -/
def defaultInstruction : String :=
  "You are a helpful, witty, and concise AI assistant. Respond naturally and conversationally."

/-- Initial component state: inactive, mic on, no session, empty audio
state. -/
def initialState : CompState :=
  ⟨false, false, false, true, defaultInstruction, none, 0, 0, 0, [], false,
   false, false, none, false, true⟩

/-- Events driving the component: user interactions (connect click with
the outcome of the synchronous setup section, mic toggle, disconnect
click, editing the instruction textarea), SDK callbacks (onopen,
onmessage, onerror, onclose), microphone processor callbacks and
animation frames. `clickConnect ok failMsg` records whether the setup
section up to and including `live.connect` succeeded, and the exception
message when it threw. -/
inductive Event where
  | clickConnect (ok : Bool) (failMsg : String)
  | sessionOpened
  | audioBlock (block : List ℚ)
  | serverMsg (fid : Nat) (ctxTime : ℚ) (m : ServerMsg)
  | sessionError
  | sessionClosed
  | clickToggleMic
  | clickDisconnect
  | animFrame
  | setInstruction (v : String)
deriving Repr, DecidableEq

/-- Externally visible actions a transition performs. -/
inductive UIAction where
  | connectLive (cfg : LiveConfig)
  | sendPcm (blob : List ℤ)
  | startSource (fid : Nat) (t : ℚ)
  | stopSource (fid : Nat)
  | stopMicTracks
  | closeContexts
  | closeSession
deriving Repr, DecidableEq

/-- The `cleanupAudio` callback (lines 42-83): cancel the animation loop,
stop and clear all tracked playback sources, stop the microphone tracks,
disconnect the processing nodes, close both audio contexts, reset
`nextStartTimeRef` and null the session promise ref, then reset the
speaking flag, both volume values and the connecting flag. -/
def cleanupAudio (s : CompState) : CompState × List UIAction :=
  ({ s with animRunning := false, sources := [], streamActive := false,
            capturedMicOn := none, contextsOpen := false, nextStartTime := 0,
            sessionOpen := false, isAiSpeaking := false, visualVolume := 0,
            currentVolume := 0, isConnecting := false },
   s.sources.map UIAction.stopSource
     ++ (if s.streamActive then [UIAction.stopMicTracks] else [])
     ++ (if s.contextsOpen then [UIAction.closeContexts] else []))

/-- The `disconnectSession` callback (lines 85-96): close the session if
one exists, run `cleanupAudio`, and leave the active screen. -/
def disconnectSession (s : CompState) : CompState × List UIAction :=
  let r := cleanupAudio s
  ({ r.1 with isActive := false },
   (if s.sessionOpen then [UIAction.closeSession] else []) ++ r.2)

/-- One transition of the LiveVoice component. Models, in order of the
match arms: the instruction textarea onChange (line 316), `toggleMic`
(lines 258-260), `connectSession` (lines 111-256) with its early return
on `isConnecting`, its success path and its catch path, the `onopen`
callback (lines 156-196) which installs the audio processor whose closure
sees the `isMicOn` value of the render that created `connectSession`, the
`onaudioprocess` callback (lines 170-192), the `onmessage` callback
(lines 197-235) whose audio branch additionally requires the output
context, `onerror` (lines 241-245), `onclose` (lines 236-240), the
disconnect button, and one animation frame of `startVisualLoop`. -/
def step (sq : ℚ → ℚ) (s : CompState) (e : Event) : CompState × List UIAction :=
  match e with
  | Event.setInstruction v => ({ s with systemInstruction := v }, [])
  | Event.clickToggleMic => ({ s with isMicOn := !s.isMicOn }, [])
  | Event.clickConnect ok failMsg =>
    if s.isConnecting then (s, [])
    else
      let s1 := { s with isConnecting := true, error := none,
                         renderMicAtConnect := s.isMicOn }
      if ok then
        ({ s1 with contextsOpen := true, streamActive := true,
                   sessionOpen := true },
         [UIAction.connectLive (mkLiveConfig s.systemInstruction)])
      else
        cleanupAudio { s1 with contextsOpen := true, error := some failMsg }
  | Event.sessionOpened =>
    if s.sessionOpen then
      let s1 := { s with isConnecting := false, isActive := true,
                         animRunning := true }
      if s1.contextsOpen && s1.streamActive then
        ({ s1 with capturedMicOn := some s.renderMicAtConnect }, [])
      else (s1, [])
    else (s, [])
  | Event.audioBlock block =>
    match s.capturedMicOn with
    | none => (s, [])
    | some b =>
      if b then
        ({ s with currentVolume := instVolume sq block },
         [UIAction.sendPcm (createBlob block)])
      else ({ s with currentVolume := 0 }, [])
  | Event.serverMsg fid ctxTime m =>
    let m2 := if s.contextsOpen then m else { m with audioDuration := none }
    let r := onmessage ⟨s.nextStartTime, s.sources, s.isAiSpeaking⟩ fid ctxTime m2
    ({ s with nextStartTime := r.1.nextStartTime, sources := r.1.sources,
              isAiSpeaking := r.1.isAiSpeaking },
     (match r.2.started with
      | some (i, t0) => [UIAction.startSource i t0]
      | none => []) ++ r.2.stopped.map UIAction.stopSource)
  | Event.sessionError =>
    disconnectSession { s with error := some "Connection failed. Please try again." }
  | Event.sessionClosed =>
    ({ s with isActive := false, isAiSpeaking := false, isConnecting := false }, [])
  | Event.clickDisconnect => disconnectSession s
  | Event.animFrame =>
    if s.animRunning then
      ({ s with visualVolume := visualStep s.visualVolume s.currentVolume }, [])
    else (s, [])

/-- Runs a sequence of events from a state, collecting all actions. -/
def run (sq : ℚ → ℚ) : CompState → List Event → CompState × List UIAction
  | s, [] => (s, [])
  | s, e :: rest =>
    let r1 := step sq s e
    let r2 := run sq r1.1 rest
    (r2.1, r1.2 ++ r2.2)

/-- Feeds a sequence of captured microphone blocks to the component, in
capture order, collecting the actions performed by the audio callback. -/
def processBlocks (sq : ℚ → ℚ) (s : CompState) (blocks : List (List ℚ)) :
    CompState × List UIAction :=
  run sq s (blocks.map Event.audioBlock)

/-- Message roles in the chat panel (src/types.ts). -/
inductive ChatRole where
  | user
  | model
deriving Repr, DecidableEq

/-- A `ChatMessage` (src/types.ts). Ids come from `Date.now()` (and
`Date.now() + 1` for the placeholder) and are modelled by the number
itself rather than its decimal string; the optional `isStreaming` flag
defaults to false. -/
structure ChatMsg where
  id : Nat
  role : ChatRole
  text : String
  timestamp : Nat
  isStreaming : Bool
deriving Repr, DecidableEq

/-- State of the ChatInterface component: the messages list, the input
field, the loading flag, and whether the chat ref is initialized. -/
structure ChatState where
  messages : List ChatMsg
  input : String
  isLoading : Bool
  chatReady : Bool
deriving Repr, DecidableEq

/-- Whether the JS guard `!input.trim()` holds: the input trims to the
empty string exactly when every character is whitespace. -/
def isBlank (s : String) : Bool :=
  s.toList.all Char.isWhitespace

/-- Outcome of awaiting `sendMessageStream` and iterating the stream:
either all chunk texts in arrival order, or the chunk texts consumed
before the stream threw together with the error message (none when the
thrown error has no message, making the UI fall back to a generic one). -/
inductive StreamOutcome where
  | success (chunks : List String)
  | failure (consumed : List String) (errMsg : Option String)
deriving Repr, DecidableEq

/-- Rewrites every message whose id matches, as the
`setMessages(prev => prev.map(...))` updates in `handleSubmit` do. -/
def updateMsg (msgs : List ChatMsg) (bid : Nat) (f : ChatMsg → ChatMsg) :
    List ChatMsg :=
  msgs.map (fun m => if m.id = bid then f m else m)

/-- The streaming loop of `handleSubmit`
(src/components/ChatInterface.tsx, lines 75-89): each chunk with truthy
(nonempty) text extends `fullText` and rewrites the placeholder text to
the accumulated value; returns the final messages and accumulated text. -/
def applyChunks (msgs : List ChatMsg) (bid : Nat) (full : String) :
    List String → List ChatMsg × String
  | [] => (msgs, full)
  | c :: rest =>
    if c = "" then applyChunks msgs bid full rest
    else
      applyChunks
        (updateMsg msgs bid (fun m => { m with text := full ++ c }))
        bid (full ++ c) rest

/-- Accumulated text of a chunk list, skipping empty (falsy) chunks. -/
def joinChunks (full : String) : List String → String
  | [] => full
  | c :: rest => if c = "" then joinChunks full rest else joinChunks (full ++ c) rest

/-- The `handleSubmit` handler of ChatInterface (lines 48-111): return
early on blank input, a missing chat ref or a submission already in
flight; otherwise append the user message and a streaming placeholder,
clear the input, set the loading flag, call `sendMessageStream` once,
apply the stream chunks to the placeholder; on success clear the
placeholder streaming flag, on failure overwrite the placeholder text
with the error message and clear the flag; in both cases finally clear
the loading flag. The second component counts `sendMessageStream` calls. -/
def handleSubmit (now : Nat) (st : ChatState) (outcome : StreamOutcome) :
    ChatState × Nat :=
  if isBlank st.input ∨ st.chatReady = false ∨ st.isLoading = true then
    (st, 0)
  else
    let userMsg : ChatMsg := ⟨now, ChatRole.user, st.input, now, false⟩
    let botId := now + 1
    let botMsg : ChatMsg := ⟨botId, ChatRole.model, "", now, true⟩
    let msgs0 := st.messages ++ [userMsg, botMsg]
    let msgs1 :=
      match outcome with
      | StreamOutcome.success chunks =>
        updateMsg (applyChunks msgs0 botId "" chunks).1 botId
          (fun m => { m with isStreaming := false })
      | StreamOutcome.failure consumed errMsg =>
        updateMsg (applyChunks msgs0 botId "" consumed).1 botId
          (fun m => { m with
            text := "Error: " ++ errMsg.getD "Something went wrong.",
            isStreaming := false })
    (⟨msgs1, "", false, st.chatReady⟩, 1)

/-- The two page-level components defined under src/components. -/
inductive UIComponent where
  | liveVoice
  | chatInterface
deriving Repr, DecidableEq

/-- Components the root App (src/App.tsx) renders inside its single div:
only `LiveVoice`. -/
def appRenderedComponents : List UIComponent :=
  [UIComponent.liveVoice]

/-- Components defined in the repository sources. -/
def repoComponents : List UIComponent :=
  [UIComponent.liveVoice, UIComponent.chatInterface]

theorem onmessage_audio_eq (st : OutState) (fid : Nat) (t d : ℚ) :
    onmessage st fid t ⟨some d, false⟩ =
      (⟨max st.nextStartTime t + d, fid :: st.sources, true⟩,
       ⟨some (fid, max st.nextStartTime t), []⟩) := by
  simp [onmessage]

theorem runSchedule_cons (st : OutState) (fid : Nat) (t d : ℚ)
    (rest : List (Nat × ℚ × ℚ)) :
    runSchedule st ((fid, t, d) :: rest) =
      (max st.nextStartTime t, d) ::
        runSchedule ⟨max st.nextStartTime t + d, fid :: st.sources, true⟩ rest := by
  simp [runSchedule, onmessage]

theorem runSchedule_head_ge (msgs : List (Nat × ℚ × ℚ)) (st : OutState)
    (p : ℚ × ℚ) (hp : (runSchedule st msgs).head? = some p) :
    st.nextStartTime ≤ p.1 := by
  cases msgs with
  | nil => simp [runSchedule] at hp
  | cons hd rest =>
    obtain ⟨fid, t, d⟩ := hd
    rw [runSchedule_cons] at hp
    simp at hp
    rw [← hp]
    exact le_max_left _ _

theorem runSchedule_chain (st : OutState) (msgs : List (Nat × ℚ × ℚ)) :
    List.Chain' (fun a b : ℚ × ℚ => a.1 + a.2 ≤ b.1) (runSchedule st msgs) := by
  induction msgs generalizing st with
  | nil => simp [runSchedule]
  | cons hd rest ih =>
    obtain ⟨fid, t, d⟩ := hd
    rw [runSchedule_cons]
    refine List.chain'_cons'.mpr ⟨?_, ih _⟩
    intro b hb
    simpa using runSchedule_head_ge rest _ b hb

theorem runSchedule_durations (st : OutState) (msgs : List (Nat × ℚ × ℚ)) :
    (runSchedule st msgs).map Prod.snd = msgs.map (fun x => x.2.2) := by
  induction msgs generalizing st with
  | nil => simp [runSchedule]
  | cons hd rest ih =>
    obtain ⟨fid, t, d⟩ := hd
    rw [runSchedule_cons]
    simp [ih]

/-- Claim C1: every decoded audio buffer is scheduled to start at the
maximum of the previously scheduled end time (`nextStartTimeRef`) and the
output context's current time, and `nextStartTimeRef` then advances by
exactly the buffer's duration; hence over any sequence of audio messages
the scheduled (start, duration) pairs appear in arrival order, each
buffer starting no earlier than the previous buffer's end, so playback is
back to back and without overlap. -/
theorem audio_buffers_scheduled_in_order_without_overlap :
    (∀ (st : OutState) (fid : Nat) (t d : ℚ),
      (onmessage st fid t ⟨some d, false⟩).2.started
          = some (fid, max st.nextStartTime t) ∧
      (onmessage st fid t ⟨some d, false⟩).1.nextStartTime
          = max st.nextStartTime t + d) ∧
    (∀ (st : OutState) (msgs : List (Nat × ℚ × ℚ)),
      List.Chain' (fun a b : ℚ × ℚ => a.1 + a.2 ≤ b.1) (runSchedule st msgs)) ∧
    (∀ (st : OutState) (msgs : List (Nat × ℚ × ℚ)),
      (runSchedule st msgs).map Prod.snd = msgs.map (fun x => x.2.2)) := by
  refine ⟨?_, runSchedule_chain, runSchedule_durations⟩
  intro st fid t d
  simp [onmessage]

/-- Claim C2: when a server message carries the interrupted flag, the
handler stops every tracked playback source (including one started by the
same message), empties the tracked set, resets the next scheduled start
time to 0 and clears the AI-speaking flag. -/
theorem interrupt_stops_all_sources_and_resets :
    ∀ (st : OutState) (fid : Nat) (t : ℚ),
      (∀ d : ℚ,
        (onmessage st fid t ⟨some d, true⟩).1 = ⟨0, [], false⟩ ∧
        (onmessage st fid t ⟨some d, true⟩).2.stopped = fid :: st.sources) ∧
      ((onmessage st fid t ⟨none, true⟩).1 = ⟨0, [], false⟩ ∧
       (onmessage st fid t ⟨none, true⟩).2.stopped = st.sources) := by
  intro st fid t
  exact ⟨fun d => ⟨by simp [onmessage], by simp [onmessage]⟩,
         by simp [onmessage], by simp [onmessage]⟩

/-- Claim C10: invoking `connectSession` while the connecting flag is set
returns immediately: the component state is unchanged and no action is
performed. -/
theorem connect_noop_while_connecting (sq : ℚ → ℚ) (s : CompState)
    (ok : Bool) (failMsg : String) (h : s.isConnecting = true) :
    step sq s (Event.clickConnect ok failMsg) = (s, []) := by
  simp [step, h]

/-- Witness for claim C10 at a concrete connecting state. -/
theorem connect_noop_while_connecting_witness :
    step (fun x => x) { initialState with isConnecting := true }
        (Event.clickConnect true "boom")
      = ({ initialState with isConnecting := true }, []) :=
  connect_noop_while_connecting (fun x => x) _ true "boom" rfl

/-- Claim C8: the text entered in the system-instruction textarea is
stored unmodified, and starting a conversation passes it unmodified as
the systemInstruction field of the live connect configuration. -/
theorem system_instruction_passed_unmodified (sq : ℚ → ℚ) (s : CompState)
    (v failMsg : String) (h : s.isConnecting = false) :
    (step sq s (Event.setInstruction v)).1.systemInstruction = v ∧
    (step sq (step sq s (Event.setInstruction v)).1
        (Event.clickConnect true failMsg)).2
      = [UIAction.connectLive (mkLiveConfig v)] ∧
    (mkLiveConfig v).systemInstruction = v := by
  refine ⟨rfl, ?_, rfl⟩
  simp [step, h]

/-- Witness for claim C8 at a concrete state and instruction. -/
theorem system_instruction_passed_unmodified_witness :
    (step (fun x => x) (step (fun x => x) initialState
        (Event.setInstruction "Be a pirate.")).1
        (Event.clickConnect true "")).2
      = [UIAction.connectLive (mkLiveConfig "Be a pirate.")] :=
  (system_instruction_passed_unmodified (fun x => x) initialState
    "Be a pirate." "" rfl).2.1

/-- Claim C3: when the live session reports an error (or session setup
throws), the component records a user-visible error message and fully
tears down: it stops all playback sources, stops the microphone tracks,
closes the audio contexts, clears the session reference, and returns to
the inactive setup screen; and no transition other than a user connect
click ever performs a connect action, so there is no automatic
reconnect. `s` is the active session state hit by onerror, `s2` the
setup-screen state whose connect attempt throws, and `e` any event that
is not a connect click. -/
theorem error_teardown_and_no_auto_reconnect (sq : ℚ → ℚ)
    (s s2 : CompState) (e : Event) (failMsg : String) (fid : Nat)
    (hopen : s.sessionOpen = true) (hstream : s.streamActive = true)
    (hctx : s.contextsOpen = true) (hfid : fid ∈ s.sources)
    (h2c : s2.isConnecting = false) (h2a : s2.isActive = false)
    (hne : ∀ ok m, e ≠ Event.clickConnect ok m) (cfg : LiveConfig) :
    (step sq s Event.sessionError).1.error
        = some "Connection failed. Please try again." ∧
    (step sq s Event.sessionError).1.isActive = false ∧
    (step sq s Event.sessionError).1.isConnecting = false ∧
    (step sq s Event.sessionError).1.sessionOpen = false ∧
    (step sq s Event.sessionError).1.sources = [] ∧
    (step sq s Event.sessionError).1.streamActive = false ∧
    (step sq s Event.sessionError).1.contextsOpen = false ∧
    UIAction.closeSession ∈ (step sq s Event.sessionError).2 ∧
    UIAction.stopSource fid ∈ (step sq s Event.sessionError).2 ∧
    UIAction.stopMicTracks ∈ (step sq s Event.sessionError).2 ∧
    UIAction.closeContexts ∈ (step sq s Event.sessionError).2 ∧
    (step sq s2 (Event.clickConnect false failMsg)).1.error = some failMsg ∧
    (step sq s2 (Event.clickConnect false failMsg)).1.isActive = false ∧
    (step sq s2 (Event.clickConnect false failMsg)).1.isConnecting = false ∧
    (step sq s2 (Event.clickConnect false failMsg)).1.sessionOpen = false ∧
    (step sq s2 (Event.clickConnect false failMsg)).1.contextsOpen = false ∧
    UIAction.closeContexts ∈ (step sq s2 (Event.clickConnect false failMsg)).2 ∧
    UIAction.connectLive cfg ∉ (step sq s e).2 := by
  refine ⟨?_, ?_, ?_, ?_, ?_, ?_, ?_, ?_, ?_, ?_, ?_, ?_, ?_, ?_, ?_, ?_, ?_, ?_⟩
  all_goals first
  | (simp [step, disconnectSession, cleanupAudio, hopen, hstream, hctx, hfid, h2a, h2c])
  | skip
  cases e with
  | clickConnect ok m => exact absurd rfl (hne ok m)
  | serverMsg fid2 t m =>
    simp only [step]
    rcases hc : s.contextsOpen with _ | _ <;>
      rcases hm : m.audioDuration with _ | d <;>
      rcases hi : m.interrupted with _ | _ <;>
      simp [onmessage, hc, hm, hi]
  | clickDisconnect => simp [step, disconnectSession, cleanupAudio]
  | sessionError => simp [step, disconnectSession, cleanupAudio]
  | sessionOpened => simp [step]
  | audioBlock block =>
    simp only [step]
    rcases hcm : s.capturedMicOn with _ | b
    · simp
    · cases b <;> simp
  | animFrame =>
    rcases ha : s.animRunning with _ | _ <;> simp [step, ha]
  | sessionClosed => simp [step]
  | clickToggleMic => simp [step]
  | setInstruction v => simp [step]

/-- Witness for claim C3 at a concrete open-session state, a concrete
failed connect attempt, and a concrete non-connect event. -/
theorem error_teardown_and_no_auto_reconnect_witness :
    (step (fun x => x)
        { initialState with sessionOpen := true, streamActive := true,
                            contextsOpen := true, sources := [7] }
        Event.sessionError).1.isActive = false ∧
    UIAction.closeSession ∈ (step (fun x => x)
        { initialState with sessionOpen := true, streamActive := true,
                            contextsOpen := true, sources := [7] }
        Event.sessionError).2 ∧
    UIAction.stopSource 7 ∈ (step (fun x => x)
        { initialState with sessionOpen := true, streamActive := true,
                            contextsOpen := true, sources := [7] }
        Event.sessionError).2 ∧
    UIAction.stopMicTracks ∈ (step (fun x => x)
        { initialState with sessionOpen := true, streamActive := true,
                            contextsOpen := true, sources := [7] }
        Event.sessionError).2 ∧
    (step (fun x => x) initialState
        (Event.clickConnect false "boom")).1.error = some "boom" ∧
    UIAction.connectLive (mkLiveConfig "") ∉ (step (fun x => x)
        { initialState with sessionOpen := true, streamActive := true,
                            contextsOpen := true, sources := [7] }
        Event.sessionError).2 := by
  have h := error_teardown_and_no_auto_reconnect (fun x => x)
      { initialState with sessionOpen := true, streamActive := true,
                          contextsOpen := true, sources := [7] }
      initialState Event.sessionError "boom" 7
      rfl rfl rfl (by simp) rfl rfl
      (fun ok m hh => Event.noConfusion hh) (mkLiveConfig "")
  obtain ⟨h1, h2, h3, h4, h5, h6, h7, h8, h9, h10,
          h11, h12, h13, h14, h15, h16, h17, h18⟩ := h
  exact ⟨h2, h8, h9, h10, h12, h18⟩

theorem instVolume_single_one (sq : ℚ → ℚ) (hsq : sq 4 = 2) :
    instVolume sq [1] = 1 := by
  have h0 : sumSqEvery4 [1] = 1 := by
    have hr : List.range 1 = [0] := by decide
    simp [sumSqEvery4, hr]
  have harg : sumSqEvery4 [1] / ((([1] : List ℚ).length : ℚ) / 4) = 4 := by
    rw [h0]
    norm_num
  rw [instVolume, harg, hsq]
  norm_num

/-- Claim C4 (code bug): after the session opens with the microphone on
and the user toggles the microphone off, a later audio block is still
forwarded to the session and the instantaneous volume is still set to a
nonzero value, because the installed `onaudioprocess` closure reads the
stale `isMicOn` value captured when `connectSession` ran, not the current
state. With a host square root satisfying sq 4 = 2, the block [1] yields
volume 1 and one forwarded PCM frame even though `isMicOn` is false, in
contradiction with the mute button and the MUTED status label. -/
theorem mute_toggle_ineffective_stale_closure (sq : ℚ → ℚ) (hsq : sq 4 = 2) :
    (run sq initialState
        [Event.clickConnect true "", Event.sessionOpened,
         Event.clickToggleMic]).1.isMicOn = false ∧
    (run sq initialState
        [Event.clickConnect true "", Event.sessionOpened,
         Event.clickToggleMic]).1.isActive = true ∧
    (step sq (run sq initialState
        [Event.clickConnect true "", Event.sessionOpened,
         Event.clickToggleMic]).1 (Event.audioBlock [1])).2
      = [UIAction.sendPcm (createBlob [1])] ∧
    (step sq (run sq initialState
        [Event.clickConnect true "", Event.sessionOpened,
         Event.clickToggleMic]).1 (Event.audioBlock [1])).1.currentVolume
      = 1 := by
  have hstate : (run sq initialState
      [Event.clickConnect true "", Event.sessionOpened,
       Event.clickToggleMic]).1
      = ⟨true, false, false, false, defaultInstruction, none, 0, 0, 0, [],
         true, true, true, some true, true, true⟩ := rfl
  refine ⟨by rw [hstate], by rw [hstate], by rw [hstate]; rfl, ?_⟩
  rw [hstate]
  show instVolume sq [1] = 1
  exact instVolume_single_one sq hsq

/-- Witness for the claim C4 theorem with the host square root
instantiated by a function with sq 4 = 2. -/
theorem mute_toggle_ineffective_stale_closure_witness :
    (step (fun _ => (2 : ℚ)) (run (fun _ => (2 : ℚ)) initialState
        [Event.clickConnect true "", Event.sessionOpened,
         Event.clickToggleMic]).1 (Event.audioBlock [1])).2
      = [UIAction.sendPcm (createBlob [1])] ∧
    (step (fun _ => (2 : ℚ)) (run (fun _ => (2 : ℚ)) initialState
        [Event.clickConnect true "", Event.sessionOpened,
         Event.clickToggleMic]).1 (Event.audioBlock [1])).1.currentVolume
      = 1 :=
  ⟨(mute_toggle_ineffective_stale_closure (fun _ => 2) rfl).2.2.1,
   (mute_toggle_ineffective_stale_closure (fun _ => 2) rfl).2.2.2⟩

/-- Counterexample to claim C6 as stated: in a reachable state with the
session open and the component active (connect, open, toggle the mic off,
disconnect, connect again, open again), the audio callback forwards
nothing for the nonempty captured block [1], because the installed
processor closure captured isMicOn = false. -/
theorem session_open_block_not_forwarded :
    ((run (fun _ => (0 : ℚ)) initialState
        [Event.clickConnect true "", Event.sessionOpened,
         Event.clickToggleMic, Event.clickDisconnect,
         Event.clickConnect true "", Event.sessionOpened]).1.sessionOpen
      = true) ∧
    ((run (fun _ => (0 : ℚ)) initialState
        [Event.clickConnect true "", Event.sessionOpened,
         Event.clickToggleMic, Event.clickDisconnect,
         Event.clickConnect true "", Event.sessionOpened]).1.isActive
      = true) ∧
    (step (fun _ => (0 : ℚ)) (run (fun _ => (0 : ℚ)) initialState
        [Event.clickConnect true "", Event.sessionOpened,
         Event.clickToggleMic, Event.clickDisconnect,
         Event.clickConnect true "", Event.sessionOpened]).1
        (Event.audioBlock [1])).2 = [] :=
  ⟨rfl, rfl, rfl⟩

theorem step_audioBlock_preserves_captured (sq : ℚ → ℚ) (s : CompState)
    (block : List ℚ) :
    (step sq s (Event.audioBlock block)).1.capturedMicOn = s.capturedMicOn := by
  rcases h : s.capturedMicOn with _ | b
  · simp [step, h]
  · cases b <;> simp [step, h]

/-- Claim C6, amended: while the installed audio processor captured the
microphone flag as on, every captured block is converted to a PCM blob
and forwarded to the live session, one frame per block, in capture
order. -/
theorem mic_on_blocks_forwarded_in_order (sq : ℚ → ℚ) (s : CompState)
    (blocks : List (List ℚ)) (h : s.capturedMicOn = some true) :
    (processBlocks sq s blocks).2
      = blocks.map (fun b => UIAction.sendPcm (createBlob b)) := by
  induction blocks generalizing s with
  | nil => rfl
  | cons b rest ih =>
    have hstep : (step sq s (Event.audioBlock b)).2
        = [UIAction.sendPcm (createBlob b)] := by
      simp [step, h]
    have hpres : (step sq s (Event.audioBlock b)).1.capturedMicOn
        = some true := by
      rw [step_audioBlock_preserves_captured]
      exact h
    have hrest := ih _ hpres
    simp only [processBlocks, List.map] at hrest ⊢
    simp only [run]
    rw [hstep, hrest]
    simp

/-- Witness for the amended claim C6 theorem at a concrete state with the
captured microphone flag on and one concrete block. -/
theorem mic_on_blocks_forwarded_in_order_witness :
    (processBlocks (fun _ => (0 : ℚ))
        { initialState with capturedMicOn := some true } [[1]]).2
      = [UIAction.sendPcm (createBlob [1])] :=
  mic_on_blocks_forwarded_in_order (fun _ => (0 : ℚ))
    { initialState with capturedMicOn := some true } [[1]] rfl

/-- Claim C7: while the captured mic flag is on, the audio callback sets
the instantaneous volume to the RMS of every fourth sample of the block,
boosted by 5 and clamped at 1, so it lies in [0, 1] whenever the host
square root is nonnegative; each animation frame moves the visual volume
20 percent of the remaining gap toward the instantaneous volume, so with
both values in [0, 1] the visual volume stays in [0, 1]. -/
theorem volume_rms_clamped_and_visual_bounded (sq : ℚ → ℚ)
    (block : List ℚ) (v c : ℚ) (s : CompState)
    (hcap : s.capturedMicOn = some true) (hanim : s.animRunning = true)
    (hsq : 0 ≤ sq (sumSqEvery4 block / ((block.length : ℚ) / 4)))
    (hv0 : 0 ≤ v) (hv1 : v ≤ 1) (hc0 : 0 ≤ c) (hc1 : c ≤ 1) :
    (step sq s (Event.audioBlock block)).1.currentVolume
        = instVolume sq block ∧
    instVolume sq block
        = min (sq (sumSqEvery4 block / ((block.length : ℚ) / 4)) * 5) 1 ∧
    instVolume sq block ≤ 1 ∧
    0 ≤ instVolume sq block ∧
    (step sq s Event.animFrame).1.visualVolume
        = visualStep s.visualVolume s.currentVolume ∧
    visualStep v c - v = (c - v) * 0.2 ∧
    0 ≤ visualStep v c ∧ visualStep v c ≤ 1 := by
  refine ⟨by simp [step, hcap], rfl, min_le_right _ _,
          le_min (mul_nonneg hsq (by norm_num)) zero_le_one,
          by simp [step, hanim], by unfold visualStep; ring, ?_, ?_⟩
  · unfold visualStep
    nlinarith
  · unfold visualStep
    nlinarith

/-- Witness for claim C7 at a concrete square root, block, state and
volume pair. -/
theorem volume_rms_clamped_and_visual_bounded_witness :
    instVolume (fun _ => (0 : ℚ)) [] ≤ 1 ∧
    0 ≤ instVolume (fun _ => (0 : ℚ)) [] ∧
    0 ≤ visualStep 0 1 ∧ visualStep 0 1 ≤ 1 := by
  have h := volume_rms_clamped_and_visual_bounded (fun _ => (0 : ℚ)) [] 0 1
      { initialState with capturedMicOn := some true, animRunning := true }
      rfl rfl le_rfl le_rfl (by norm_num) (by norm_num) le_rfl
  exact ⟨h.2.2.1, h.2.2.2.1, h.2.2.2.2.2.2.1, h.2.2.2.2.2.2.2⟩

theorem updateMsg_notmem (A : List ChatMsg) (bid : Nat)
    (f : ChatMsg → ChatMsg) (hA : ∀ m ∈ A, m.id ≠ bid) :
    updateMsg A bid f = A := by
  induction A with
  | nil => rfl
  | cons a A ih =>
    have ha : a.id ≠ bid := hA a (List.mem_cons_self a A)
    have hA2 : ∀ m ∈ A, m.id ≠ bid := fun m hm => hA m (List.mem_cons_of_mem a hm)
    simp only [updateMsg, List.map_cons, if_neg ha]
    have := ih hA2
    simp only [updateMsg] at this
    rw [this]

theorem updateMsg_append2 (A : List ChatMsg) (u b : ChatMsg) (bid : Nat)
    (f : ChatMsg → ChatMsg) (hA : ∀ m ∈ A, m.id ≠ bid) (hu : u.id ≠ bid)
    (hb : b.id = bid) :
    updateMsg (A ++ [u, b]) bid f = A ++ [u, f b] := by
  have hsplit : updateMsg (A ++ [u, b]) bid f
      = updateMsg A bid f ++ updateMsg [u, b] bid f := by
    simp [updateMsg]
  rw [hsplit, updateMsg_notmem A bid f hA]
  simp [updateMsg, hu, hb]

theorem applyChunks_spec (chunks : List String) :
    ∀ (A : List ChatMsg) (u b : ChatMsg) (bid : Nat) (full : String),
      (∀ m ∈ A, m.id ≠ bid) → u.id ≠ bid → b.id = bid → b.text = full →
      applyChunks (A ++ [u, b]) bid full chunks
        = (A ++ [u, { b with text := joinChunks full chunks }],
           joinChunks full chunks) := by
  induction chunks with
  | nil =>
    intro A u b bid full hA hu hb hbt
    subst hbt
    simp [applyChunks, joinChunks]
  | cons c rest ih =>
    intro A u b bid full hA hu hb hbt
    by_cases hc : c = ""
    · subst hc
      simp only [applyChunks, joinChunks, if_pos rfl]
      exact ih A u b bid full hA hu hb hbt
    · simp only [applyChunks, joinChunks, if_neg hc]
      rw [updateMsg_append2 A u b bid _ hA hu hb]
      exact ih A u { b with text := full ++ c } bid (full ++ c) hA hu hb rfl

/-- Claim C9: for every non-blank chat submission (with the chat ready
and no submission in flight, and the placeholder id fresh), handleSubmit
appends exactly one user message carrying the raw input and exactly one
streaming placeholder; on success the placeholder ends with the chunk
texts concatenated in arrival order and its streaming flag cleared; on a
streaming failure the placeholder text is replaced by the error message
(with a generic fallback) and its streaming flag cleared, with no second
request; in both cases exactly one request is sent and the loading flag
ends cleared. -/
theorem chat_submit_appends_and_streams (now : Nat) (st : ChatState)
    (chunks consumed : List String) (errMsg : Option String)
    (hblank : isBlank st.input = false) (hready : st.chatReady = true)
    (hload : st.isLoading = false)
    (hfresh : ∀ m ∈ st.messages, m.id ≠ now + 1) :
    (handleSubmit now st (StreamOutcome.success chunks)).1.messages
      = st.messages
        ++ [⟨now, ChatRole.user, st.input, now, false⟩,
            ⟨now + 1, ChatRole.model, joinChunks "" chunks, now, false⟩] ∧
    (handleSubmit now st (StreamOutcome.success chunks)).1.isLoading = false ∧
    (handleSubmit now st (StreamOutcome.success chunks)).2 = 1 ∧
    (handleSubmit now st (StreamOutcome.failure consumed errMsg)).1.messages
      = st.messages
        ++ [⟨now, ChatRole.user, st.input, now, false⟩,
            ⟨now + 1, ChatRole.model,
             "Error: " ++ errMsg.getD "Something went wrong.", now, false⟩] ∧
    (handleSubmit now st (StreamOutcome.failure consumed errMsg)).1.isLoading
      = false ∧
    (handleSubmit now st (StreamOutcome.failure consumed errMsg)).2 = 1 := by
  have hguard :
      ¬ (isBlank st.input = true ∨ st.chatReady = false ∨ st.isLoading = true) := by
    simp [hblank, hready, hload]
  have hu : (now : Nat) ≠ now + 1 := by omega
  refine ⟨?_, ?_, ?_, ?_, ?_, ?_⟩
  · simp only [handleSubmit]
    rw [if_neg hguard]
    rw [applyChunks_spec chunks st.messages
        ⟨now, ChatRole.user, st.input, now, false⟩
        ⟨now + 1, ChatRole.model, "", now, true⟩ (now + 1) "" hfresh hu rfl rfl]
    rw [updateMsg_append2 st.messages _ _ (now + 1) _ hfresh hu rfl]
  · simp only [handleSubmit]
    rw [if_neg hguard]
  · simp only [handleSubmit]
    rw [if_neg hguard]
  · simp only [handleSubmit]
    rw [if_neg hguard]
    rw [applyChunks_spec consumed st.messages
        ⟨now, ChatRole.user, st.input, now, false⟩
        ⟨now + 1, ChatRole.model, "", now, true⟩ (now + 1) "" hfresh hu rfl rfl]
    rw [updateMsg_append2 st.messages _ _ (now + 1) _ hfresh hu rfl]
  · simp only [handleSubmit]
    rw [if_neg hguard]
  · simp only [handleSubmit]
    rw [if_neg hguard]

/-- Witness for claim C9 at a concrete submission. -/
theorem chat_submit_appends_and_streams_witness :
    (handleSubmit 0 ⟨[], "hi", false, true⟩
        (StreamOutcome.success ["a", "b"])).1.messages
      = [⟨0, ChatRole.user, "hi", 0, false⟩,
         ⟨1, ChatRole.model, joinChunks "" ["a", "b"], 0, false⟩] ∧
    (handleSubmit 0 ⟨[], "hi", false, true⟩
        (StreamOutcome.failure [] (some "boom"))).2 = 1 := by
  have h := chat_submit_appends_and_streams 0 ⟨[], "hi", false, true⟩
      ["a", "b"] [] (some "boom") (by decide) rfl rfl (by simp)
  exact ⟨by simpa using h.1, h.2.2.2.2.2⟩

/-- Counterexample to claim C5 as stated: the chat panel is not among the
components the root App presents. -/
theorem chat_panel_not_rendered :
    UIComponent.chatInterface ∉ appRenderedComponents := by
  decide

/-- Claim C5, amended: the repository defines a secondary text-chat panel
component with an interactive submit flow, but the application does not
present it: the root App renders only the voice interface. -/
theorem chat_panel_defined_but_not_presented :
    appRenderedComponents = [UIComponent.liveVoice] ∧
    UIComponent.chatInterface ∈ repoComponents ∧
    UIComponent.chatInterface ∉ appRenderedComponents ∧
    (handleSubmit 0 ⟨[], "x", false, true⟩ (StreamOutcome.success [])).2 = 1 := by
  refine ⟨rfl, by decide, by decide, ?_⟩
  rw [handleSubmit, if_neg ?_]
  simp [isBlank]
